import Mathlib

/-!
Verification of the panorama-cms/logger repository (Go).

The repository holds several historical variants of one logging package:
- `part_000`: the seven-level engine (DEBUG, INFO, NOTICE, WARNING, ERROR,
  EMERGENCY, FATAL) with a weight map, a threshold, a reject policy for
  unknown levels, a FATAL write-then-panic path, and `LogSimpleRequest`.
  Embedded below in namespace `V0`.
- `part_001` (first file): a five-level engine whose `l` coerces unknown
  levels to INFO, has no threshold check, and has no FATAL panic.
  Embedded below in namespace `V1`.
- `request.go`: the basic request logger (struct `Request`, `GetCSVHeader`,
  `ToCSV`, `LogRequest` without a CSV header line). Namespace `Basic`.
- `part_002`: the geo-enriched request logger (geo fields on `Request`,
  header-once CSV files, `LogRequestFromFiber` with a geo database).
  Namespace `Geo`.

Modelling conventions:
- The wall clock is an input: each call takes `now` (microseconds, a `Nat`,
  the value of `microTime()`), plus the already formatted `date`
  (YYYY-MM-DD) and `tFormatted` timestamp strings that Go obtains from
  `time.Now().Format`.
- The file system is a small association list from file name to the list of
  appended chunks; `os.OpenFile(..., O_APPEND|O_CREATE, ...)` followed by
  `WriteString` is `FS.appendLine`, `os.Create` is `FS.setFile`.
- `log.Println` diagnostics go to a `diags` list (stderr, not the log file).
- `panic(content)` is recorded in the `panicked` field of the resulting
  state; `log.Fatal` on an error path is an `Except.error` result.
- File operations never fail in the model (the Go code treats any such
  failure as unrecoverable via `log.Fatal` before reaching later steps).
-/

/-- One file: name paired with the list of chunks written to it, in order. -/
abbrev FS := List (String × List String)

/-- Reading a file name: `some` chunks when the file exists. -/
def FS.lookup : FS → String → Option (List String)
  | [], _ => none
  | (n, ls) :: fs, name => if n = name then some ls else FS.lookup fs name

/-- The contents of a file, empty when absent. -/
def FS.read (fs : FS) (name : String) : List String :=
  (FS.lookup fs name).getD []

/-- os.OpenFile with O_APPEND|O_CREATE followed by WriteString: append one
chunk, creating the file when absent. -/
def FS.appendLine : FS → String → String → FS
  | [], name, line => [(name, [line])]
  | (n, ls) :: fs, name, line =>
    if n = name then (n, ls ++ [line]) :: fs
    else (n, ls) :: FS.appendLine fs name line

/-- os.Stat existence test. -/
def FS.present (fs : FS) (name : String) : Bool :=
  (FS.lookup fs name).isSome

/-- os.Create followed by writes: the file now holds exactly `lines`. -/
def FS.setFile : FS → String → List String → FS
  | [], name, lines => [(name, lines)]
  | (n, ls) :: fs, name, lines =>
    if n = name then (n, lines) :: fs
    else (n, ls) :: FS.setFile fs name lines

/-- Decimal digit character, 0 ↦ 0x30. -/
def digitChar (n : Nat) : Char := Char.ofNat (48 + n)

/-- Accumulator loop behind `FormatUint`: pushes the decimal digits of `n`
in front of `acc`, most significant first.  The first argument is fuel
(structural recursion); `n` itself is always enough fuel, since writing a
positive number takes no more digits than its value. -/
def formatUintAux : Nat → Nat → List Char → List Char
  | 0, _, acc => acc
  | fuel + 1, n, acc =>
    if n = 0 then acc
    else formatUintAux fuel (n / 10) (digitChar (n % 10) :: acc)

/-- strconv.FormatUint(n, 10): decimal rendering of an unsigned integer. -/
def FormatUint (n : Nat) : String :=
  if n = 0 then "0" else ⟨formatUintAux n n []⟩

/-- Left-pad the decimal rendering of `n` with zeros to width `w`
(fmt.Sprintf with a %0wd verb). -/
def padZeros (w : Nat) (n : Nat) : String :=
  let s := FormatUint n
  ⟨List.replicate (w - s.length) '0'⟩ ++ s

/-- formatMicroTimeDuration: renders a duration as DD:HH:MM:SS.microseconds.
The Go source takes fractional seconds as a float64; the model takes the
duration in whole microseconds, on which the successive divisions by
86400, 3600, 60 and 1 second are the divisions and remainders below. -/
def formatMicroTimeDuration (us : Nat) : String :=
  let days := us / 86400000000
  let r1 := us % 86400000000
  let hours := r1 / 3600000000
  let r2 := r1 % 3600000000
  let minutes := r2 / 60000000
  let r3 := r2 % 60000000
  let seconds := r3 / 1000000
  let micro := r3 % 1000000
  padZeros 2 days ++ ":" ++ padZeros 2 hours ++ ":" ++ padZeros 2 minutes
    ++ ":" ++ padZeros 2 seconds ++ "." ++ padZeros 6 micro

/-- strings.ReplaceAll(s, ",", ";"): with a one-character pattern and a
one-character replacement this is exactly per-character substitution. -/
def replaceCommas (s : String) : String :=
  ⟨s.data.map fun c => if c = ',' then ';' else c⟩

/-- strings.ToUpper restricted to ASCII letters (the severity names the
registry compares against are all ASCII). -/
def toUpperAscii (s : String) : String :=
  ⟨s.data.map Char.toUpper⟩

def LevelDebug : String := "DEBUG"
def LevelInfo : String := "INFO"
def LevelNotice : String := "NOTICE"
def LevelWarning : String := "WARNING"
def LevelError : String := "ERROR"
def LevelEmergency : String := "EMERGENCY"
def LevelFatal : String := "FATAL"

/-- The LevelWeights map of the seven-level variant, as a partial lookup:
`none` models absence of the key (`_, ok := LevelWeights[level]` with
`ok = false`). -/
def LevelWeights (level : String) : Option Nat :=
  if level = LevelDebug then some 0
  else if level = LevelInfo then some 1
  else if level = LevelNotice then some 2
  else if level = LevelWarning then some 3
  else if level = LevelError then some 4
  else if level = LevelEmergency then some 5
  else if level = LevelFatal then some 6
  else none

/-- The package-level configuration variables that are set once before
logging begins. -/
structure Config where
  LogDir : String := "./logs"
  IncludeRuntime : Bool := false
  IncludeStep : Bool := false
  Component : String := ""
  LogRequestsSeparately : Bool := false
  HideRequestsFromMainLog : Bool := false
deriving Repr, DecidableEq

/-- The mutable package state: threshold name and weight, the lazily
initialized clock cells, the files written so far, the stderr diagnostics,
and whether a FATAL emission has panicked. -/
structure LoggerState where
  minimumLogLevel : String := LevelNotice
  levelWeight : Nat := 2
  start : Nat := 0
  lastStep : Nat := 0
  fs : FS := []
  diags : List String := []
  panicked : Option String := none
deriving Repr, DecidableEq

/-- The state right after init() with no environment variables set:
minimumLogLevel = NOTICE, levelWeight = LevelWeights[NOTICE] = 2, clock
cells zero, nothing written. -/
def initialState : LoggerState := {}

/-- The main log file for a given day: LogDir + "/" + date + ".log". -/
def mainKey (cfg : Config) (date : String) : String :=
  cfg.LogDir ++ "/" ++ date ++ ".log"

/-- The per-day request CSV file: LogDir + "/requests-" + date + ".csv". -/
def csvKey (cfg : Config) (date : String) : String :=
  cfg.LogDir ++ "/requests-" ++ date ++ ".csv"

/-- The per-day simple-request CSV file of the seven-level variant. -/
def simpleCsvKey (cfg : Config) (date : String) : String :=
  cfg.LogDir ++ "/requests-simple-" ++ date ++ ".csv"

/-- The composed main-log entry: timestamp bracket, optional runtime and
step brackets, optional component bracket, then " LEVEL message\n". -/
def composeEntry (cfg : Config) (tFormatted : String) (runtime step : Nat)
    (level content : String) : String :=
  "[" ++ tFormatted ++ "]"
    ++ (if cfg.IncludeRuntime then "[" ++ formatMicroTimeDuration runtime ++ "]" else "")
    ++ (if cfg.IncludeStep then "[" ++ formatMicroTimeDuration step ++ "]" else "")
    ++ (if cfg.Component ≠ "" then "[" ++ cfg.Component ++ "]" else "")
    ++ " " ++ level ++ " " ++ content ++ "\n"

namespace V0

/-- The `l` function of the seven-level variant (part_000 lines 232-317):
reject unknown levels with a diagnostic; reject levels below the threshold
with diagnostics; otherwise initialize the clock cells on first emission,
compute runtime and step, append the composed entry to the main log for
`date`, and panic when the level is FATAL.  Directory creation and file
open/close are no-ops in the file-system model. -/
def l (cfg : Config) (st : LoggerState) (now : Nat) (date tFormatted : String)
    (level content : String) : LoggerState :=
  match LevelWeights level with
  | none =>
    { st with diags := st.diags ++ ["LOGGER: Invalid log level: " ++ level] }
  | some w =>
    if st.levelWeight > w then
      { st with diags := st.diags
          ++ ["LOGGER: Log level not allowed: " ++ level,
              "LOGGER: Level weight of minimum log level: " ++ FormatUint st.levelWeight
                ++ ", level weight of selected level: " ++ FormatUint w] }
    else
      let st := if st.start = 0 then { st with start := now, lastStep := now } else st
      let runtime := now - st.start
      let step := now - st.lastStep
      let st := { st with lastStep := now }
      let entry := composeEntry cfg tFormatted runtime step level content
      let st := { st with fs := FS.appendLine st.fs (mainKey cfg date) entry }
      if level = LevelFatal then { st with panicked := some content } else st

/-- Log delegates to l. -/
def Log (cfg : Config) (st : LoggerState) (now : Nat) (date tFormatted : String)
    (level content : String) : LoggerState :=
  l cfg st now date tFormatted level content

/-- SetMinimumLogLevel (part_000 lines 173-188): uppercase the argument,
set threshold name and weight when the name is in the weight map, otherwise
recurse with NOTICE.  The recursive call always hits the found branch
(NOTICE is in the map with weight 2), so it is inlined here. -/
def SetMinimumLogLevel (st : LoggerState) (level : String) : LoggerState :=
  let lvl := toUpperAscii level
  match LevelWeights lvl with
  | some w => { st with minimumLogLevel := lvl, levelWeight := w }
  | none => { st with minimumLogLevel := LevelNotice, levelWeight := 2 }

/-- LogSimpleRequest (part_000 lines 403-435): one INFO line to the main
log unless both separate logging and hiding are on; when separate logging
is on, append a header-less CSV line (comma-sanitized user agent) to the
per-day simple-request file. -/
def LogSimpleRequest (cfg : Config) (st : LoggerState) (now : Nat)
    (date tFormatted : String) (method path userAgent ip : String) : LoggerState :=
  let st :=
    if (!cfg.LogRequestsSeparately) || (cfg.LogRequestsSeparately && !cfg.HideRequestsFromMainLog) then
      Log cfg st now date tFormatted LevelInfo
        ("(" ++ method ++ ") " ++ path ++ " <- " ++ userAgent ++ " @ " ++ ip)
    else st
  if cfg.LogRequestsSeparately then
    let userAgent := replaceCommas userAgent
    let entry := tFormatted ++ "," ++ method ++ "," ++ path ++ "," ++ userAgent
      ++ "," ++ ip ++ "\n"
    { st with fs := FS.appendLine st.fs (simpleCsvKey cfg date) entry }
  else st

end V0

namespace V1

/-- The `l` function of the five-level variant (part_001 lines 110-180):
an empty or unrecognized level is coerced to INFO; there is no threshold
check, no component bracket and no FATAL panic. -/
def l (cfg : Config) (st : LoggerState) (now : Nat) (date tFormatted : String)
    (level content : String) : LoggerState :=
  let level :=
    if level = "" then LevelInfo
    else if level ≠ LevelDebug ∧ level ≠ LevelInfo ∧ level ≠ LevelWarning
        ∧ level ≠ LevelError ∧ level ≠ LevelFatal then LevelInfo
    else level
  let st := if st.start = 0 then { st with start := now, lastStep := now } else st
  let runtime := now - st.start
  let step := now - st.lastStep
  let st := { st with lastStep := now }
  let entry := "[" ++ tFormatted ++ "]"
    ++ (if cfg.IncludeRuntime then "[" ++ formatMicroTimeDuration runtime ++ "]" else "")
    ++ (if cfg.IncludeStep then "[" ++ formatMicroTimeDuration step ++ "]" else "")
    ++ " " ++ level ++ " " ++ content ++ "\n"
  { st with fs := FS.appendLine st.fs (mainKey cfg date) entry }

/-- Fatal of the same variant (part_001 lines 233-235): plain delegation to
l with level FATAL; this variant raises no termination signal. -/
def Fatal (cfg : Config) (st : LoggerState) (now : Nat) (date tFormatted : String)
    (content : String) : LoggerState :=
  l cfg st now date tFormatted LevelFatal content

end V1

namespace Basic

/-- The Request record of request.go (no geo fields).  ConnectionID and
ConnectionSeq are uint64 values, modelled as Nat (their only use is decimal
rendering). -/
structure Request where
  ConnectionTime : String := ""
  Method : String := ""
  Path : String := ""
  IP : String := ""
  Address : String := ""
  UserAgent : String := ""
  Referer : String := ""
  ConnectionID : Nat := 0
  ConnectionSeq : Nat := 0
  RequestedHost : String := ""
deriving Repr, DecidableEq

/-- GetCSVHeader of request.go (lines 64-77), in source order. -/
def GetCSVHeader : List String :=
  ["connection_time", "method", "path", "ip", "address", "user_agent",
   "referer", "connection_id", "connection_seq", "requested_host"]

/-- ToCSV of request.go (lines 79-90), in source order. -/
def ToCSV (r : Request) : String :=
  r.ConnectionTime ++ "," ++ r.Method ++ "," ++ r.Path ++ "," ++ r.IP ++ ","
    ++ r.Address ++ "," ++ r.UserAgent ++ "," ++ r.Referer ++ ","
    ++ r.RequestedHost ++ "," ++ FormatUint r.ConnectionID ++ ","
    ++ FormatUint r.ConnectionSeq ++ "\n"

/-- The comma-separated fields of ToCSV, in the order ToCSV emits them. -/
def toCSVFields (r : Request) : List String :=
  [r.ConnectionTime, r.Method, r.Path, r.IP, r.Address, r.UserAgent,
   r.Referer, r.RequestedHost, FormatUint r.ConnectionID,
   FormatUint r.ConnectionSeq]

/-- The Request field carrying a given header tag, per the json tags of the
struct ("connection_time" names ConnectionTime and so on). -/
def fieldByTag (r : Request) (tag : String) : Option String :=
  if tag = "connection_time" then some r.ConnectionTime
  else if tag = "method" then some r.Method
  else if tag = "path" then some r.Path
  else if tag = "ip" then some r.IP
  else if tag = "address" then some r.Address
  else if tag = "user_agent" then some r.UserAgent
  else if tag = "referer" then some r.Referer
  else if tag = "connection_id" then some (FormatUint r.ConnectionID)
  else if tag = "connection_seq" then some (FormatUint r.ConnectionSeq)
  else if tag = "requested_host" then some r.RequestedHost
  else none

/-- LogRequest of request.go (lines 130-162): the INFO summary goes to the
main log unless both separate logging and hiding are on; when separate
logging is on, sanitize the user agent in place and append the CSV row
(this variant writes no header line).  The main-log call goes through the
coercing five-level l that this snapshot of the package ships with. -/
def LogRequest (cfg : Config) (st : LoggerState) (now : Nat)
    (date tFormatted : String) (req : Request) : LoggerState × Request :=
  let st :=
    if (!cfg.LogRequestsSeparately) || (cfg.LogRequestsSeparately && !cfg.HideRequestsFromMainLog) then
      V1.l cfg st now date tFormatted LevelInfo
        ("(" ++ req.Method ++ ") " ++ req.Path ++ " <- " ++ req.UserAgent ++ " @ " ++ req.IP)
    else st
  if cfg.LogRequestsSeparately then
    let req := { req with UserAgent := replaceCommas req.UserAgent }
    ({ st with fs := FS.appendLine st.fs (csvKey cfg date) (ToCSV req) }, req)
  else (st, req)

end Basic

namespace Geo

/-- The Request record of part_002, with the geo fields.  Latitude and
Longitude are float64 in the source; they are modelled as integers (the
claims below concern field order and presence, not float arithmetic), and
the %.12f rendering of such a value is the integer followed by twelve
zeros. -/
structure Request where
  ConnectionTime : String := ""
  Method : String := ""
  Path : String := ""
  IP : String := ""
  Address : String := ""
  UserAgent : String := ""
  Referer : String := ""
  ConnectionID : Nat := 0
  ConnectionSeq : Nat := 0
  RequestedHost : String := ""
  Continent : String := ""
  Country : String := ""
  CountryCode : String := ""
  City : String := ""
  Latitude : Int := 0
  Longitude : Int := 0
  Timezone : String := ""
  PostalCode : String := ""
  Subdivision : String := ""
  SubdivisionCode : String := ""
deriving Repr, DecidableEq

/-- New(): the zero-valued Request. -/
def New : Request := {}

/-- fmt.Sprintf with a %.12f verb on an integer-valued coordinate. -/
def sprintfF12 (x : Int) : String :=
  (if x < 0 then "-" else "") ++ FormatUint x.natAbs ++ "." ++ "000000000000"

/-- GetCSVHeader of part_002 (lines 108-131), in source order: the geo
columns sit between requested_host and the connection identifiers. -/
def GetCSVHeader : List String :=
  ["connection_time", "method", "path", "ip", "address", "user_agent",
   "referer", "requested_host", "continent", "country", "country_code",
   "city", "latitude", "longitude", "timezone", "postal_code",
   "subdivision", "subdivision_code", "connection_id", "connection_seq"]

/-- ToCSV of part_002 (lines 133-154), in source order. -/
def ToCSV (r : Request) : String :=
  r.ConnectionTime ++ "," ++ r.Method ++ "," ++ r.Path ++ "," ++ r.IP ++ ","
    ++ r.Address ++ "," ++ r.UserAgent ++ "," ++ r.Referer ++ ","
    ++ r.RequestedHost ++ "," ++ r.Continent ++ "," ++ r.Country ++ ","
    ++ r.CountryCode ++ "," ++ r.City ++ "," ++ sprintfF12 r.Latitude ++ ","
    ++ sprintfF12 r.Longitude ++ "," ++ r.Timezone ++ "," ++ r.PostalCode ++ ","
    ++ r.Subdivision ++ "," ++ r.SubdivisionCode ++ ","
    ++ FormatUint r.ConnectionID ++ "," ++ FormatUint r.ConnectionSeq ++ "\n"

/-- The comma-separated fields of ToCSV, in the order ToCSV emits them. -/
def toCSVFields (r : Request) : List String :=
  [r.ConnectionTime, r.Method, r.Path, r.IP, r.Address, r.UserAgent,
   r.Referer, r.RequestedHost, r.Continent, r.Country, r.CountryCode,
   r.City, sprintfF12 r.Latitude, sprintfF12 r.Longitude, r.Timezone,
   r.PostalCode, r.Subdivision, r.SubdivisionCode,
   FormatUint r.ConnectionID, FormatUint r.ConnectionSeq]

/-- The Request field carrying a given header tag, per the json tags of the
struct. -/
def fieldByTag (r : Request) (tag : String) : Option String :=
  if tag = "connection_time" then some r.ConnectionTime
  else if tag = "method" then some r.Method
  else if tag = "path" then some r.Path
  else if tag = "ip" then some r.IP
  else if tag = "address" then some r.Address
  else if tag = "user_agent" then some r.UserAgent
  else if tag = "referer" then some r.Referer
  else if tag = "requested_host" then some r.RequestedHost
  else if tag = "continent" then some r.Continent
  else if tag = "country" then some r.Country
  else if tag = "country_code" then some r.CountryCode
  else if tag = "city" then some r.City
  else if tag = "latitude" then some (sprintfF12 r.Latitude)
  else if tag = "longitude" then some (sprintfF12 r.Longitude)
  else if tag = "timezone" then some r.Timezone
  else if tag = "postal_code" then some r.PostalCode
  else if tag = "subdivision" then some r.Subdivision
  else if tag = "subdivision_code" then some r.SubdivisionCode
  else if tag = "connection_id" then some (FormatUint r.ConnectionID)
  else if tag = "connection_seq" then some (FormatUint r.ConnectionSeq)
  else none

/-- strings.Join(GetCSVHeader(), ",") + "\n": the header chunk written on
file creation. -/
def headerLine : String := String.intercalate "," GetCSVHeader ++ "\n"

/-- First block of LogRequest of part_002 (lines 247-249): the INFO summary
goes to the main log (through the seven-level engine this snapshot ships
with) unless both separate logging and hiding are on. -/
def logRequestMain (cfg : Config) (st : LoggerState) (now : Nat)
    (date tFormatted : String) (req : Request) : LoggerState :=
  if (!cfg.LogRequestsSeparately) || (cfg.LogRequestsSeparately && !cfg.HideRequestsFromMainLog) then
    V0.Log cfg st now date tFormatted LevelInfo
      ("(" ++ req.Method ++ ") " ++ req.Path ++ " <- " ++ req.UserAgent ++ " @ " ++ req.IP)
  else st

/-- Second block of LogRequest of part_002 (lines 251-298): when separate
logging is on, the per-day CSV file is created with the header line if
absent, the user agent is sanitized in place, and the CSV row is
appended. -/
def logRequestCSV (cfg : Config) (st : LoggerState) (date : String)
    (req : Request) : LoggerState × Request :=
  if cfg.LogRequestsSeparately then
    let filename := csvKey cfg date
    let st :=
      if FS.present st.fs filename then st
      else { st with fs := FS.setFile st.fs filename [headerLine] }
    let req := { req with UserAgent := replaceCommas req.UserAgent }
    ({ st with fs := FS.appendLine st.fs filename (ToCSV req) }, req)
  else (st, req)

/-- LogRequest of part_002 (lines 246-299): the main-log block followed by
the CSV block. -/
def LogRequest (cfg : Config) (st : LoggerState) (now : Nat)
    (date tFormatted : String) (req : Request) : LoggerState × Request :=
  logRequestCSV cfg (logRequestMain cfg st now date tFormatted req) date req

/-- One geo record as the geoip2 City lookup returns it, already projected
to the pieces part_002 reads: the English names (empty string when the
lookup section has no English name), the ISO codes, location data, and the
subdivision list as (English name, ISO code) pairs. -/
structure GeoRecord where
  continentEn : String := ""
  countryEn : String := ""
  countryIso : String := ""
  cityEn : String := ""
  latitude : Int := 0
  longitude : Int := 0
  timezone : String := ""
  postalCode : String := ""
  subdivisions : List (String × String) := []
deriving Repr, DecidableEq

/-- The request attributes part_002 extracts from the fiber context:
connection time, method, path, the client IP plus the forwarded IP list,
the remote address, user agent, referer, connection identifiers and host. -/
structure FiberCtx where
  connTime : String := ""
  method : String := ""
  path : String := ""
  ip : String := ""
  ips : List String := []
  remoteAddr : String := ""
  userAgent : String := ""
  referer : String := ""
  connID : Nat := 0
  connSeq : Nat := 0
  host : String := ""
deriving Repr, DecidableEq

/-- LogRequestFromFiber of part_002 (lines 156-244).  The geo database is
`none` when no database is configured (GeoIPDB == nil); otherwise it is the
City lookup on the client IP string, already composed with net.ParseIP (an
unparseable IP yields a nil argument to City, which the library reports as
an error).  A lookup error hits log.Fatal in the source, modelled as an
`Except.error` result; otherwise the populated request is handed to
LogRequest. -/
def LogRequestFromFiber (cfg : Config) (st : LoggerState)
    (db : Option (String → Except String GeoRecord)) (now : Nat)
    (date tFormatted : String) (c : FiberCtx) :
    Except String (LoggerState × Request) :=
  let req := New
  let req := { req with ConnectionTime := c.connTime, Method := c.method, Path := c.path }
  let ip := match c.ips with | [] => c.ip | x :: _ => x
  let req := { req with IP := ip }
  let geoStep : Except String Request :=
    match db with
    | none => Except.ok req
    | some cityLookup =>
      match cityLookup ip with
      | Except.error e => Except.error e
      | Except.ok record =>
        Except.ok { req with
          Continent := if record.continentEn ≠ "" then record.continentEn else "Unknown",
          Country := if record.countryEn ≠ "" then record.countryEn else "Unknown",
          CountryCode := record.countryIso,
          City := record.cityEn,
          Latitude := record.latitude,
          Longitude := record.longitude,
          Timezone := record.timezone,
          PostalCode := record.postalCode,
          Subdivision :=
            match record.subdivisions with
            | (nameEn, _) :: _ => if nameEn ≠ "" then nameEn else "Unknown"
            | [] => "Unknown",
          SubdivisionCode :=
            match record.subdivisions with
            | (_, iso) :: _ => if iso ≠ "" then iso else "Unknown"
            | [] => "Unknown" }
  match geoStep with
  | Except.error e => Except.error e
  | Except.ok req =>
    let req := { req with
      Address := c.remoteAddr,
      UserAgent := c.userAgent,
      Referer := c.referer,
      ConnectionID := c.connID,
      ConnectionSeq := c.connSeq,
      RequestedHost := c.host }
    Except.ok (LogRequest cfg st now date tFormatted req)

/-- A day of request traffic through LogRequest: each call supplies its
clock reading, its formatted timestamp and its request, all on the same
calendar date. -/
def runDay (cfg : Config) (date : String) :
    LoggerState → List (Nat × String × Request) → LoggerState
  | st, [] => st
  | st, (now, ts, req) :: rest =>
    runDay cfg date (LogRequest cfg st now date ts req).1 rest

end Geo

/-! Helper lemmas about the model infrastructure. -/

theorem string_ext {a b : String} (h : a.data = b.data) : a = b := by
  cases a; cases b; exact congrArg String.mk h

theorem formatUintAux_append (fuel : Nat) :
    ∀ (n : Nat) (acc : List Char),
      formatUintAux fuel n acc = formatUintAux fuel n [] ++ acc := by
  induction fuel with
  | zero => intro n acc; rfl
  | succ fuel ih =>
    intro n acc
    by_cases h : n = 0
    · simp [formatUintAux, h]
    · simp only [formatUintAux, h, if_false]
      rw [ih (n / 10) (digitChar (n % 10) :: acc), ih (n / 10) [digitChar (n % 10)]]
      simp

theorem FormatUint_data_decomp (n : Nat) :
    ∃ rest k, k < 10 ∧ (FormatUint n).data = rest ++ [digitChar k] := by
  by_cases h : n = 0
  · refine ⟨[], 0, by decide, ?_⟩
    subst h; decide
  · refine ⟨formatUintAux (n - 1) (n / 10) [], n % 10, Nat.mod_lt _ (by decide), ?_⟩
    have hn : n = (n - 1) + 1 := (Nat.succ_pred_eq_of_pos (Nat.pos_of_ne_zero h)).symm
    show (FormatUint n).data = _
    rw [FormatUint, if_neg h]
    show formatUintAux n n [] = _
    conv_lhs => rw [hn]
    simp only [formatUintAux]
    rw [← hn, if_neg h, formatUintAux_append]

theorem digitChar_ne_q {k : Nat} (hk : k < 10) : digitChar k ≠ 'q' := by
  interval_cases k <;> decide

theorem append_last_two {l₁ l₂ : List Char} {a b c d : Char} (hne : a ≠ c)
    (h : l₁ ++ [a, b] = l₂ ++ [c, d]) : False := by
  have h1 : (l₁ ++ [a]) ++ [b] = (l₂ ++ [c]) ++ [d] := by
    simpa [List.append_assoc] using h
  have h2 := congrArg List.dropLast h1
  rw [List.dropLast_concat, List.dropLast_concat] at h2
  have h3 := congrArg List.getLast? h2
  rw [List.getLast?_concat, List.getLast?_concat] at h3
  exact hne (by injection h3)

theorem FS.lookup_appendLine_self (fs : FS) (k e : String) :
    FS.lookup (FS.appendLine fs k e) k = some (FS.read fs k ++ [e]) := by
  induction fs with
  | nil => simp [FS.appendLine, FS.lookup, FS.read]
  | cons p fs ih =>
    obtain ⟨n, ls⟩ := p
    by_cases h : n = k
    · subst h; simp [FS.appendLine, FS.lookup, FS.read]
    · simp [FS.appendLine, FS.lookup, FS.read, h, ih]

theorem FS.read_appendLine_self (fs : FS) (k e : String) :
    FS.read (FS.appendLine fs k e) k = FS.read fs k ++ [e] := by
  simp [FS.read, FS.lookup_appendLine_self]

theorem FS.lookup_appendLine_ne {k' k : String} (fs : FS) (e : String) (h : k' ≠ k) :
    FS.lookup (FS.appendLine fs k e) k' = FS.lookup fs k' := by
  have h2 : ¬k = k' := fun hk => h hk.symm
  induction fs with
  | nil => simp [FS.appendLine, FS.lookup, h2]
  | cons p fs ih =>
    obtain ⟨n, ls⟩ := p
    by_cases hn : n = k
    · subst hn
      simp [FS.appendLine, FS.lookup, Ne.symm h]
    · by_cases hn' : n = k'
      · subst hn'; simp [FS.appendLine, FS.lookup, hn]
      · simp [FS.appendLine, FS.lookup, hn, hn', ih]

theorem FS.appendLine_ne (fs : FS) (k e : String) : FS.appendLine fs k e ≠ fs := by
  intro h
  have h1 : FS.lookup (FS.appendLine fs k e) k = FS.lookup fs k :=
    congrArg (fun fs => FS.lookup fs k) h
  rw [FS.lookup_appendLine_self] at h1
  cases hl : FS.lookup fs k with
  | none => rw [hl] at h1; exact Option.noConfusion h1
  | some l =>
    rw [hl] at h1
    have h2 : FS.read fs k ++ [e] = l := Option.some.inj h1
    have h3 : FS.read fs k = l := by simp [FS.read, hl]
    rw [h3] at h2
    have := congrArg List.length h2
    simp at this

theorem FS.lookup_setFile_self (fs : FS) (k : String) (lines : List String) :
    FS.lookup (FS.setFile fs k lines) k = some lines := by
  induction fs with
  | nil => simp [FS.setFile, FS.lookup]
  | cons p fs ih =>
    obtain ⟨n, ls⟩ := p
    by_cases h : n = k
    · subst h; simp [FS.setFile, FS.lookup]
    · simp [FS.setFile, FS.lookup, h, ih]

theorem FS.lookup_setFile_ne {k' k : String} (fs : FS) (lines : List String) (h : k' ≠ k) :
    FS.lookup (FS.setFile fs k lines) k' = FS.lookup fs k' := by
  have h2 : ¬k = k' := fun hk => h hk.symm
  induction fs with
  | nil => simp [FS.setFile, FS.lookup, h2]
  | cons p fs ih =>
    obtain ⟨n, ls⟩ := p
    by_cases hn : n = k
    · subst hn; simp [FS.setFile, FS.lookup, Ne.symm h]
    · by_cases hn' : n = k'
      · subst hn'; simp [FS.setFile, FS.lookup, hn]
      · simp [FS.setFile, FS.lookup, hn, hn', ih]

theorem getLast?_data_log (s : String) : (s ++ ".log").data.getLast? = some 'g' := by
  rw [String.data_append]
  have h : (".log" : String).data = ['.', 'l', 'o'] ++ ['g'] := rfl
  rw [h, ← List.append_assoc]
  exact List.getLast?_concat _

theorem getLast?_data_csv (s : String) : (s ++ ".csv").data.getLast? = some 'v' := by
  rw [String.data_append]
  have h : (".csv" : String).data = ['.', 'c', 's'] ++ ['v'] := rfl
  rw [h, ← List.append_assoc]
  exact List.getLast?_concat _

theorem mainKey_ne_csvKey (cfg cfg' : Config) (d d' : String) :
    mainKey cfg d ≠ csvKey cfg' d' := by
  intro h
  have h1 := congrArg (fun s => s.data.getLast?) h
  simp only [mainKey, csvKey] at h1
  rw [getLast?_data_log, getLast?_data_csv] at h1
  exact absurd h1 (by decide)

theorem mainKey_ne_simpleCsvKey (cfg cfg' : Config) (d d' : String) :
    mainKey cfg d ≠ simpleCsvKey cfg' d' := by
  intro h
  have h1 := congrArg (fun s => s.data.getLast?) h
  simp only [mainKey, simpleCsvKey] at h1
  rw [getLast?_data_log, getLast?_data_csv] at h1
  exact absurd h1 (by decide)

theorem toUpperAscii_of_recognized {lvl : String} {w : Nat}
    (h : LevelWeights lvl = some w) : toUpperAscii lvl = lvl := by
  unfold LevelWeights at h
  split_ifs at h with h1 h2 h3 h4 h5 h6 h7
  · subst h1; decide
  · subst h2; decide
  · subst h3; decide
  · subst h4; decide
  · subst h5; decide
  · subst h6; decide
  · subst h7; decide

theorem LevelWeights_le_six {lvl : String} {w : Nat}
    (h : LevelWeights lvl = some w) : w ≤ 6 := by
  unfold LevelWeights at h
  split_ifs at h <;> first
    | exact Option.noConfusion h
    | (injection h with h2; omega)

theorem V0.l_unknown (cfg : Config) (st : LoggerState) (now : Nat)
    (date ts level content : String) (h : LevelWeights level = none) :
    V0.l cfg st now date ts level content
      = { st with diags := st.diags ++ ["LOGGER: Invalid log level: " ++ level] } := by
  unfold V0.l
  rw [h]

theorem V0.l_blocked {level : String} {w : Nat} (cfg : Config) (st : LoggerState)
    (now : Nat) (date ts content : String) (h : LevelWeights level = some w)
    (hw : w < st.levelWeight) :
    V0.l cfg st now date ts level content
      = { st with diags := st.diags
          ++ ["LOGGER: Log level not allowed: " ++ level,
              "LOGGER: Level weight of minimum log level: " ++ FormatUint st.levelWeight
                ++ ", level weight of selected level: " ++ FormatUint w] } := by
  unfold V0.l
  simp only [h]
  rw [if_pos hw]

theorem V0.l_emit_spec {level : String} {w : Nat} (cfg : Config) (st : LoggerState)
    (now : Nat) (date ts content : String) (h : LevelWeights level = some w)
    (hw : st.levelWeight ≤ w) :
    V0.l cfg st now date ts level content =
      (let st1 := if st.start = 0 then { st with start := now, lastStep := now } else st
       let runtime := now - st1.start
       let step := now - st1.lastStep
       let st2 := { st1 with lastStep := now }
       let entry := composeEntry cfg ts runtime step level content
       let st3 := { st2 with fs := FS.appendLine st2.fs (mainKey cfg date) entry }
       if level = LevelFatal then { st3 with panicked := some content } else st3) := by
  unfold V0.l
  simp only [h]
  rw [if_neg (by omega)]

theorem V0.l_lookup_other (cfg : Config) (st : LoggerState) (now : Nat)
    (date ts level content : String) {k : String} (hk : k ≠ mainKey cfg date) :
    FS.lookup (V0.l cfg st now date ts level content).fs k = FS.lookup st.fs k := by
  unfold V0.l
  cases hW : LevelWeights level with
  | none => simp
  | some w =>
    simp only
    by_cases hth : st.levelWeight > w
    · rw [if_pos hth]
    · rw [if_neg hth]
      split <;>
        simp [apply_ite LoggerState.fs, FS.lookup_appendLine_ne _ _ hk]

set_option maxRecDepth 100000 in
theorem Geo.toCSV_ne_headerLine (r : Geo.Request) : Geo.ToCSV r ≠ Geo.headerLine := by
  intro heq
  obtain ⟨rest, k, hk, hseq⟩ := FormatUint_data_decomp r.ConnectionSeq
  have hnl : ("\n" : String).data = ['\n'] := rfl
  have hrow : (Geo.ToCSV r).data =
      ((r.ConnectionTime ++ "," ++ r.Method ++ "," ++ r.Path ++ "," ++ r.IP ++ ","
        ++ r.Address ++ "," ++ r.UserAgent ++ "," ++ r.Referer ++ ","
        ++ r.RequestedHost ++ "," ++ r.Continent ++ "," ++ r.Country ++ ","
        ++ r.CountryCode ++ "," ++ r.City ++ "," ++ sprintfF12 r.Latitude ++ ","
        ++ sprintfF12 r.Longitude ++ "," ++ r.Timezone ++ "," ++ r.PostalCode ++ ","
        ++ r.Subdivision ++ "," ++ r.SubdivisionCode ++ ","
        ++ FormatUint r.ConnectionID ++ ",").data ++ rest) ++ [digitChar k, '\n'] := by
    simp only [Geo.ToCSV, String.data_append, hseq, hnl, List.append_assoc]
    simp
  have hhd : Geo.headerLine.data =
      ("connection_time,method,path,ip,address,user_agent,referer,requested_host,continent,country,country_code,city,latitude,longitude,timezone,postal_code,subdivision,subdivision_code,connection_id,connection_se" : String).data
        ++ ['q', '\n'] := by decide
  exact append_last_two (digitChar_ne_q hk) (by rw [← hrow, ← hhd, heq])

theorem V0.l_emit_fs {level : String} {w : Nat} (cfg : Config) (st : LoggerState)
    (now : Nat) (date ts content : String) (h : LevelWeights level = some w)
    (hw : st.levelWeight ≤ w) :
    ∃ e, (V0.l cfg st now date ts level content).fs
        = FS.appendLine st.fs (mainKey cfg date) e := by
  rw [V0.l_emit_spec cfg st now date ts content h hw]
  by_cases hs : st.start = 0
  · exact ⟨composeEntry cfg ts (now - now) (now - now) level content,
      by simp [hs, apply_ite LoggerState.fs]⟩
  · exact ⟨composeEntry cfg ts (now - st.start) (now - st.lastStep) level content,
      by simp [hs, apply_ite LoggerState.fs]⟩

/-- C1: for recognized severities A and B with weight(A) < weight(B), after
setting the threshold to B an emission at level A through l leaves the file
system, hence the log file, unchanged; and for every recognized level, an
emission through l writes to the file system exactly when its weight is at
least the current threshold weight. -/
theorem c1_weight_gating (cfg : Config) (st : LoggerState) (now : Nat)
    (date ts msg A B : String) (wa wb : Nat)
    (hA : LevelWeights A = some wa) (hB : LevelWeights B = some wb)
    (hlt : wa < wb) :
    (V0.l cfg (V0.SetMinimumLogLevel st B) now date ts A msg).fs
        = (V0.SetMinimumLogLevel st B).fs
    ∧ ∀ lvl w, LevelWeights lvl = some w →
        ((V0.l cfg st now date ts lvl msg).fs ≠ st.fs ↔ st.levelWeight ≤ w) := by
  constructor
  · have hset : V0.SetMinimumLogLevel st B
        = { st with minimumLogLevel := B, levelWeight := wb } := by
      unfold V0.SetMinimumLogLevel
      rw [toUpperAscii_of_recognized hB]
      simp only [hB]
    rw [hset, V0.l_blocked cfg _ now date ts msg hA hlt]
  · intro lvl w hw
    by_cases hle : st.levelWeight ≤ w
    · apply iff_of_true _ hle
      obtain ⟨e, he⟩ := V0.l_emit_fs cfg st now date ts msg hw hle
      rw [he]
      exact FS.appendLine_ne _ _ _
    · apply iff_of_false _ hle
      rw [V0.l_blocked cfg st now date ts msg hw (by omega)]
      simp

/-- C1 witness: threshold ERROR suppresses INFO on a concrete state, and the
gating biconditional holds there. -/
theorem c1_weight_gating_witness :
    LevelWeights "INFO" = some 1 ∧ LevelWeights "ERROR" = some 4 ∧ 1 < 4
    ∧ ((V0.l {} (V0.SetMinimumLogLevel initialState "ERROR") 5 "2024-01-02"
          "2024-01-02 10:00:00.000000" "INFO" "hello").fs
        = (V0.SetMinimumLogLevel initialState "ERROR").fs
      ∧ ∀ lvl w, LevelWeights lvl = some w →
          ((V0.l {} initialState 5 "2024-01-02" "2024-01-02 10:00:00.000000"
              lvl "hello").fs ≠ initialState.fs ↔ initialState.levelWeight ≤ w)) :=
  ⟨by decide, by decide, by decide,
    c1_weight_gating {} initialState 5 "2024-01-02" "2024-01-02 10:00:00.000000"
      "hello" "INFO" "ERROR" 1 4 (by decide) (by decide) (by decide)⟩

/-- C2 counterexample: in the five-level variant (part_001 lines 110-115,
cited by the claim), emitting the unrecognized level TRACE is not a no-op
on the log file: the level is coerced to INFO and an entry is appended to
the file for the day. -/
theorem c2_unknown_level_counterexample :
    LevelWeights "TRACE" = none
    ∧ (V1.l {} initialState 5 "2024-01-02" "2024-01-02 10:00:00.000000"
          "TRACE" "hello").fs
        = [("./logs/2024-01-02.log",
            ["[2024-01-02 10:00:00.000000] INFO hello\n"])] := by
  constructor
  · decide
  · decide

/-- C2 (amended): in the seven-level registry variant (part_000 lines
232-237), emitting a level that is not in LevelWeights is a no-op apart
from an invalid-level diagnostic on stderr: the whole state, including the
file system, is unchanged except for the appended diagnostic. -/
theorem c2_unknown_level_reject (cfg : Config) (st : LoggerState) (now : Nat)
    (date ts level content : String) (h : LevelWeights level = none) :
    V0.l cfg st now date ts level content
      = { st with diags := st.diags ++ ["LOGGER: Invalid log level: " ++ level] } := by
  unfold V0.l
  rw [h]

/-- C2 witness: the reject path evaluated at the unrecognized level TRACE. -/
theorem c2_unknown_level_reject_witness :
    LevelWeights "TRACE" = none
    ∧ V0.l {} initialState 5 "2024-01-02" "2024-01-02 10:00:00.000000"
          "TRACE" "hello"
        = { initialState with diags := ["LOGGER: Invalid log level: TRACE"] } := by
  refine ⟨by decide, ?_⟩
  rw [c2_unknown_level_reject {} initialState 5 "2024-01-02"
    "2024-01-02 10:00:00.000000" "TRACE" "hello" (by decide)]
  decide

theorem V0.setMin_spec_none (st : LoggerState) (level : String)
    (h : LevelWeights (toUpperAscii level) = none) :
    V0.SetMinimumLogLevel st level
      = { st with minimumLogLevel := LevelNotice, levelWeight := 2 } := by
  simp only [V0.SetMinimumLogLevel, h]

theorem V0.setMin_spec_some (st : LoggerState) (level : String) (w : Nat)
    (h : LevelWeights (toUpperAscii level) = some w) :
    V0.SetMinimumLogLevel st level
      = { st with minimumLogLevel := toUpperAscii level, levelWeight := w } := by
  simp only [V0.SetMinimumLogLevel, h]

/-- C3: after any call to SetMinimumLogLevel the stored threshold name is a
recognized severity and the cached weight is its weight; when the uppercased
argument is not recognized, the threshold falls back to NOTICE with
weight 2. -/
theorem c3_threshold_always_valid (st : LoggerState) (level : String) :
    LevelWeights (V0.SetMinimumLogLevel st level).minimumLogLevel
        = some (V0.SetMinimumLogLevel st level).levelWeight
    ∧ (LevelWeights (toUpperAscii level) = none →
        (V0.SetMinimumLogLevel st level).minimumLogLevel = LevelNotice
        ∧ (V0.SetMinimumLogLevel st level).levelWeight = 2) := by
  cases h : LevelWeights (toUpperAscii level) with
  | none =>
    rw [V0.setMin_spec_none st level h]
    exact ⟨by show LevelWeights LevelNotice = some 2; decide, fun _ => ⟨rfl, rfl⟩⟩
  | some w =>
    rw [V0.setMin_spec_some st level w h]
    exact ⟨by simpa using h, fun hnone => absurd hnone (by simp [h])⟩

/-- C3 witness: the fallback evaluated at the unrecognized name bogus. -/
theorem c3_threshold_always_valid_witness :
    LevelWeights (toUpperAscii "bogus") = none
    ∧ (V0.SetMinimumLogLevel initialState "bogus").minimumLogLevel = LevelNotice
    ∧ (V0.SetMinimumLogLevel initialState "bogus").levelWeight = 2 :=
  ⟨by decide,
    ((c3_threshold_always_valid initialState "bogus").2 (by decide)).1,
    ((c3_threshold_always_valid initialState "bogus").2 (by decide)).2⟩

theorem V0.l_emit_fresh {level : String} {w : Nat} (cfg : Config) (st : LoggerState)
    (now : Nat) (date ts content : String) (h : LevelWeights level = some w)
    (hw : st.levelWeight ≤ w) (hst : st.start = 0) :
    V0.l cfg st now date ts level content =
      (let st3 :=
         { st with
           start := now
           lastStep := now
           fs := FS.appendLine st.fs (mainKey cfg date)
             (composeEntry cfg ts (now - now) (now - now) level content) }
       if level = LevelFatal then { st3 with panicked := some content } else st3) := by
  rw [V0.l_emit_spec cfg st now date ts content h hw]
  simp [hst]

theorem V0.l_emit_stale {level : String} {w : Nat} (cfg : Config) (st : LoggerState)
    (now : Nat) (date ts content : String) (h : LevelWeights level = some w)
    (hw : st.levelWeight ≤ w) (hst : st.start ≠ 0) :
    V0.l cfg st now date ts level content =
      (let st3 :=
         { st with
           lastStep := now
           fs := FS.appendLine st.fs (mainKey cfg date)
             (composeEntry cfg ts (now - st.start) (now - st.lastStep) level content) }
       if level = LevelFatal then { st3 with panicked := some content } else st3) := by
  rw [V0.l_emit_spec cfg st now date ts content h hw]
  simp [hst]

/-- C4 counterexample: in the five-level variant cited by the claim
(part_001 lines 233-235), Fatal delegates to an l that raises no
termination signal at all: the FATAL entry is written to the log file for
the day, and no panic is recorded, so no unrecoverable-termination signal
follows the write. -/
theorem c4_fatal_counterexample :
    (V1.Fatal {} initialState 5 "2024-01-02" "2024-01-02 10:00:00.000000"
        "boom").panicked = none
    ∧ FS.lookup (V1.Fatal {} initialState 5 "2024-01-02"
          "2024-01-02 10:00:00.000000" "boom").fs "./logs/2024-01-02.log"
        = some ["[2024-01-02 10:00:00.000000] FATAL boom\n"] :=
  ⟨by decide, by decide⟩

/-- C4 (amended): in the seven-level engine (part_000 lines 302-317), a
FATAL emission appends the composed entry to the log file for the day and
records the panic, and the panic is recorded on the state that already
holds the write: the write happens before the termination signal and is
never skipped by it.  FATAL (weight 6) passes the threshold check for every
weight the threshold can hold. -/
theorem c4_fatal_write_then_panic (cfg : Config) (st : LoggerState) (now : Nat)
    (date ts content : String) (hw : st.levelWeight ≤ 6) :
    (V0.l cfg st now date ts LevelFatal content).panicked = some content
    ∧ FS.read (V0.l cfg st now date ts LevelFatal content).fs (mainKey cfg date)
        = FS.read st.fs (mainKey cfg date)
          ++ [composeEntry cfg ts
                (now - (if st.start = 0 then now else st.start))
                (now - (if st.start = 0 then now else st.lastStep))
                LevelFatal content] := by
  have h6 : LevelWeights LevelFatal = some 6 := by decide
  by_cases hs : st.start = 0
  · rw [V0.l_emit_fresh cfg st now date ts content h6 hw hs]
    simp [hs, FS.read_appendLine_self]
  · rw [V0.l_emit_stale cfg st now date ts content h6 hw hs]
    simp [hs, FS.read_appendLine_self]

/-- C4 witness: the FATAL write-then-panic path on the initial state. -/
theorem c4_fatal_write_then_panic_witness :
    initialState.levelWeight ≤ 6
    ∧ ((V0.l {} initialState 5 "2024-01-02" "2024-01-02 10:00:00.000000"
          LevelFatal "boom").panicked = some "boom"
      ∧ FS.read (V0.l {} initialState 5 "2024-01-02" "2024-01-02 10:00:00.000000"
            LevelFatal "boom").fs (mainKey {} "2024-01-02")
          = FS.read initialState.fs (mainKey {} "2024-01-02")
            ++ [composeEntry {} "2024-01-02 10:00:00.000000"
                  (5 - (if initialState.start = 0 then 5 else initialState.start))
                  (5 - (if initialState.start = 0 then 5 else initialState.lastStep))
                  LevelFatal "boom"]) :=
  ⟨by decide,
    c4_fatal_write_then_panic {} initialState 5 "2024-01-02"
      "2024-01-02 10:00:00.000000" "boom" (by decide)⟩

/-- C5: on a freshly initialized engine (start = 0), the first allowed
emission sets start and lastStep to the clock reading and appends an entry
composed with runtime 0 and step 0 (the zero duration formats as all
zeros); a second allowed emission at a strictly later clock reading appends
an entry composed with step now₂ - now₁, which is positive. -/
theorem c5_first_emission_timing (cfg : Config) (st : LoggerState)
    (now₁ now₂ : Nat) (d₁ t₁ d₂ t₂ lvl₁ m₁ lvl₂ m₂ : String) (w₁ w₂ : Nat)
    (hst : st.start = 0) (h₁ : LevelWeights lvl₁ = some w₁)
    (hw₁ : st.levelWeight ≤ w₁) (h₂ : LevelWeights lvl₂ = some w₂)
    (hw₂ : st.levelWeight ≤ w₂) (hpos : 0 < now₁) (hlt : now₁ < now₂) :
    (V0.l cfg st now₁ d₁ t₁ lvl₁ m₁).start = now₁
    ∧ (V0.l cfg st now₁ d₁ t₁ lvl₁ m₁).lastStep = now₁
    ∧ FS.read (V0.l cfg st now₁ d₁ t₁ lvl₁ m₁).fs (mainKey cfg d₁)
        = FS.read st.fs (mainKey cfg d₁) ++ [composeEntry cfg t₁ 0 0 lvl₁ m₁]
    ∧ FS.read (V0.l cfg (V0.l cfg st now₁ d₁ t₁ lvl₁ m₁) now₂ d₂ t₂ lvl₂ m₂).fs
          (mainKey cfg d₂)
        = FS.read (V0.l cfg st now₁ d₁ t₁ lvl₁ m₁).fs (mainKey cfg d₂)
          ++ [composeEntry cfg t₂ (now₂ - now₁) (now₂ - now₁) lvl₂ m₂]
    ∧ 0 < now₂ - now₁
    ∧ formatMicroTimeDuration 0 = "00:00:00:00.000000" := by
  have e₁ := V0.l_emit_fresh cfg st now₁ d₁ t₁ m₁ h₁ hw₁ hst
  have hstart : (V0.l cfg st now₁ d₁ t₁ lvl₁ m₁).start = now₁ := by
    rw [e₁]; simp [apply_ite LoggerState.start]
  have hlast : (V0.l cfg st now₁ d₁ t₁ lvl₁ m₁).lastStep = now₁ := by
    rw [e₁]; simp [apply_ite LoggerState.lastStep]
  have hlw : (V0.l cfg st now₁ d₁ t₁ lvl₁ m₁).levelWeight = st.levelWeight := by
    rw [e₁]; simp [apply_ite LoggerState.levelWeight]
  have hfs₁ : FS.read (V0.l cfg st now₁ d₁ t₁ lvl₁ m₁).fs (mainKey cfg d₁)
      = FS.read st.fs (mainKey cfg d₁) ++ [composeEntry cfg t₁ 0 0 lvl₁ m₁] := by
    rw [e₁]; simp [apply_ite LoggerState.fs, FS.read_appendLine_self]
  have e₂ := V0.l_emit_stale cfg (V0.l cfg st now₁ d₁ t₁ lvl₁ m₁) now₂ d₂ t₂ m₂ h₂
    (by rw [hlw]; exact hw₂) (by rw [hstart]; omega)
  refine ⟨hstart, hlast, hfs₁, ?_, by omega, by decide⟩
  rw [e₂]
  simp [apply_ite LoggerState.fs, FS.read_appendLine_self, hstart, hlast]

/-- C5 witness: two emissions at clock readings 5 and 9 on the initial
state, with runtime and step included in the entries. -/
theorem c5_first_emission_timing_witness :
    initialState.start = 0 ∧ LevelWeights "ERROR" = some 4
    ∧ initialState.levelWeight ≤ 4 ∧ LevelWeights "WARNING" = some 3
    ∧ initialState.levelWeight ≤ 3 ∧ 0 < 5 ∧ 5 < 9
    ∧ ((V0.l { IncludeRuntime := true, IncludeStep := true } initialState 5
          "2024-01-02" "T1" "ERROR" "m1").start = 5
      ∧ (V0.l { IncludeRuntime := true, IncludeStep := true } initialState 5
          "2024-01-02" "T1" "ERROR" "m1").lastStep = 5
      ∧ FS.read (V0.l { IncludeRuntime := true, IncludeStep := true } initialState 5
            "2024-01-02" "T1" "ERROR" "m1").fs
            (mainKey { IncludeRuntime := true, IncludeStep := true } "2024-01-02")
          = FS.read initialState.fs
              (mainKey { IncludeRuntime := true, IncludeStep := true } "2024-01-02")
            ++ [composeEntry { IncludeRuntime := true, IncludeStep := true }
                  "T1" 0 0 "ERROR" "m1"]
      ∧ FS.read (V0.l { IncludeRuntime := true, IncludeStep := true }
            (V0.l { IncludeRuntime := true, IncludeStep := true } initialState 5
              "2024-01-02" "T1" "ERROR" "m1") 9 "2024-01-02" "T2" "WARNING" "m2").fs
            (mainKey { IncludeRuntime := true, IncludeStep := true } "2024-01-02")
          = FS.read (V0.l { IncludeRuntime := true, IncludeStep := true } initialState 5
              "2024-01-02" "T1" "ERROR" "m1").fs
              (mainKey { IncludeRuntime := true, IncludeStep := true } "2024-01-02")
            ++ [composeEntry { IncludeRuntime := true, IncludeStep := true }
                  "T2" (9 - 5) (9 - 5) "WARNING" "m2"]
      ∧ 0 < 9 - 5
      ∧ formatMicroTimeDuration 0 = "00:00:00:00.000000") :=
  ⟨by decide, by decide, by decide, by decide, by decide, by decide, by decide,
    c5_first_emission_timing { IncludeRuntime := true, IncludeStep := true }
      initialState 5 9 "2024-01-02" "T1" "2024-01-02" "T2" "ERROR" "m1" "WARNING" "m2"
      4 3 (by decide) (by decide) (by decide) (by decide) (by decide) (by decide)
      (by decide)⟩

theorem list_append_singleton_ne {α : Type} (l : List α) (e : α) : l ++ [e] ≠ l := by
  intro h
  have := congrArg List.length h
  simp at this

theorem FS.read_appendLine_ne {k' k : String} (fs : FS) (e : String) (h : k' ≠ k) :
    FS.read (FS.appendLine fs k e) k' = FS.read fs k' := by
  simp [FS.read, FS.lookup_appendLine_ne _ _ h]

theorem V0.l_emit_read {level : String} {w : Nat} (cfg : Config) (st : LoggerState)
    (now : Nat) (date ts content : String) (h : LevelWeights level = some w)
    (hw : st.levelWeight ≤ w) :
    ∃ rt sp, FS.read (V0.l cfg st now date ts level content).fs (mainKey cfg date)
        = FS.read st.fs (mainKey cfg date) ++ [composeEntry cfg ts rt sp level content] := by
  by_cases hs : st.start = 0
  · refine ⟨now - now, now - now, ?_⟩
    rw [V0.l_emit_fresh cfg st now date ts content h hw hs]
    simp [apply_ite LoggerState.fs, FS.read_appendLine_self]
  · refine ⟨now - st.start, now - st.lastStep, ?_⟩
    rw [V0.l_emit_stale cfg st now date ts content h hw hs]
    simp [apply_ite LoggerState.fs, FS.read_appendLine_self]

/-- C6 counterexample: with HideRequestsFromMainLog = true and
LogRequestsSeparately = false, the visibility condition of the claim says
the request appears in the main log, but on the engine in its initial
state (threshold NOTICE, weight 2 > weight 1 of INFO) LogSimpleRequest
writes nothing at all: the file system stays empty, because the INFO
summary is suppressed by the threshold gate before reaching the file. -/
theorem c6_hide_flag_counterexample :
    (¬(({ HideRequestsFromMainLog := true } : Config).LogRequestsSeparately = true
        ∧ ({ HideRequestsFromMainLog := true } : Config).HideRequestsFromMainLog = true))
    ∧ (V0.LogSimpleRequest { HideRequestsFromMainLog := true } initialState 5
        "2024-01-02" "2024-01-02 10:00:00.000000" "GET" "/" "UA" "1.2.3.4").fs
        = ([] : FS) :=
  ⟨by decide, by decide⟩

/-- C6 (amended): provided the threshold admits INFO (weight at most 1),
LogSimpleRequest appends the one-line INFO summary to the main log exactly
when it is not the case that both LogRequestsSeparately and
HideRequestsFromMainLog are true; under the default NOTICE threshold the
summary is suppressed even when that condition holds. -/
theorem c6_main_log_visibility (cfg : Config) (st : LoggerState) (now : Nat)
    (date ts method path ua ip : String) (hw : st.levelWeight ≤ 1) :
    (¬(cfg.LogRequestsSeparately = true ∧ cfg.HideRequestsFromMainLog = true) →
      ∃ rt sp, FS.read (V0.LogSimpleRequest cfg st now date ts method path ua ip).fs
            (mainKey cfg date)
          = FS.read st.fs (mainKey cfg date)
            ++ [composeEntry cfg ts rt sp LevelInfo
                  ("(" ++ method ++ ") " ++ path ++ " <- " ++ ua ++ " @ " ++ ip)])
    ∧ ((cfg.LogRequestsSeparately = true ∧ cfg.HideRequestsFromMainLog = true) →
      FS.read (V0.LogSimpleRequest cfg st now date ts method path ua ip).fs
            (mainKey cfg date)
          = FS.read st.fs (mainKey cfg date))
    ∧ (FS.read (V0.LogSimpleRequest cfg st now date ts method path ua ip).fs
            (mainKey cfg date)
          ≠ FS.read st.fs (mainKey cfg date)
        ↔ ¬(cfg.LogRequestsSeparately = true ∧ cfg.HideRequestsFromMainLog = true)) := by
  have hInfo : LevelWeights LevelInfo = some 1 := by decide
  have hkey : mainKey cfg date ≠ simpleCsvKey cfg date :=
    mainKey_ne_simpleCsvKey cfg cfg date date
  cases hl : cfg.LogRequestsSeparately <;> cases hh : cfg.HideRequestsFromMainLog
  · obtain ⟨rt, sp, hread⟩ := V0.l_emit_read cfg st now date ts
      ("(" ++ method ++ ") " ++ path ++ " <- " ++ ua ++ " @ " ++ ip) hInfo hw
    have hres : FS.read (V0.LogSimpleRequest cfg st now date ts method path ua ip).fs
        (mainKey cfg date)
        = FS.read st.fs (mainKey cfg date)
          ++ [composeEntry cfg ts rt sp LevelInfo
                ("(" ++ method ++ ") " ++ path ++ " <- " ++ ua ++ " @ " ++ ip)] := by
      simp only [V0.LogSimpleRequest, V0.Log, hl, hh, Bool.not_false, Bool.false_and,
        Bool.or_false, Bool.true_or, if_true, if_false, Bool.not_true, cond]
      simpa using hread
    refine ⟨fun _ => ⟨rt, sp, hres⟩, fun hcontra => by simp [hl] at hcontra, ?_⟩
    rw [hres]
    simp [hl, list_append_singleton_ne]
  · obtain ⟨rt, sp, hread⟩ := V0.l_emit_read cfg st now date ts
      ("(" ++ method ++ ") " ++ path ++ " <- " ++ ua ++ " @ " ++ ip) hInfo hw
    have hres : FS.read (V0.LogSimpleRequest cfg st now date ts method path ua ip).fs
        (mainKey cfg date)
        = FS.read st.fs (mainKey cfg date)
          ++ [composeEntry cfg ts rt sp LevelInfo
                ("(" ++ method ++ ") " ++ path ++ " <- " ++ ua ++ " @ " ++ ip)] := by
      simp only [V0.LogSimpleRequest, V0.Log, hl, hh, Bool.not_false, Bool.false_and,
        Bool.or_false, Bool.true_or, if_true, if_false, Bool.not_true, cond]
      simpa using hread
    refine ⟨fun _ => ⟨rt, sp, hres⟩, fun hcontra => by simp [hh] at hcontra, ?_⟩
    rw [hres]
    simp [hh, list_append_singleton_ne]
  · obtain ⟨rt, sp, hread⟩ := V0.l_emit_read cfg st now date ts
      ("(" ++ method ++ ") " ++ path ++ " <- " ++ ua ++ " @ " ++ ip) hInfo hw
    have hres : FS.read (V0.LogSimpleRequest cfg st now date ts method path ua ip).fs
        (mainKey cfg date)
        = FS.read st.fs (mainKey cfg date)
          ++ [composeEntry cfg ts rt sp LevelInfo
                ("(" ++ method ++ ") " ++ path ++ " <- " ++ ua ++ " @ " ++ ip)] := by
      simp only [V0.LogSimpleRequest, V0.Log, hl, hh, Bool.not_false, Bool.false_and,
        Bool.or_false, Bool.true_or, Bool.true_and, if_true, if_false, Bool.not_true]
      rw [FS.read_appendLine_ne _ _ hkey]
      simpa using hread
    refine ⟨fun _ => ⟨rt, sp, hres⟩, fun hcontra => by simp [hh] at hcontra, ?_⟩
    rw [hres]
    simp [hh, list_append_singleton_ne]
  · have hres : FS.read (V0.LogSimpleRequest cfg st now date ts method path ua ip).fs
        (mainKey cfg date) = FS.read st.fs (mainKey cfg date) := by
      simp only [V0.LogSimpleRequest, V0.Log, hl, hh, Bool.not_true, Bool.true_and,
        Bool.or_self, if_false, if_true]
      rw [FS.read_appendLine_ne _ _ hkey, if_neg (by decide)]
    refine ⟨fun hcond => absurd ⟨rfl, rfl⟩ hcond, fun _ => hres, ?_⟩
    rw [hres]
    simp [hl, hh]

/-- C6 witness: with threshold DEBUG, hide-from-main on and separate
logging off, the summary does reach the main log. -/
theorem c6_main_log_visibility_witness :
    (V0.SetMinimumLogLevel initialState "DEBUG").levelWeight ≤ 1
    ∧ ((¬(({ HideRequestsFromMainLog := true } : Config).LogRequestsSeparately = true
          ∧ ({ HideRequestsFromMainLog := true } : Config).HideRequestsFromMainLog = true) →
        ∃ rt sp, FS.read (V0.LogSimpleRequest { HideRequestsFromMainLog := true }
              (V0.SetMinimumLogLevel initialState "DEBUG") 5 "2024-01-02" "TS"
              "GET" "/" "UA" "1.2.3.4").fs
              (mainKey { HideRequestsFromMainLog := true } "2024-01-02")
            = FS.read (V0.SetMinimumLogLevel initialState "DEBUG").fs
                (mainKey { HideRequestsFromMainLog := true } "2024-01-02")
              ++ [composeEntry { HideRequestsFromMainLog := true } "TS" rt sp LevelInfo
                    ("(" ++ "GET" ++ ") " ++ "/" ++ " <- " ++ "UA" ++ " @ " ++ "1.2.3.4")])
      ∧ ((({ HideRequestsFromMainLog := true } : Config).LogRequestsSeparately = true
          ∧ ({ HideRequestsFromMainLog := true } : Config).HideRequestsFromMainLog = true) →
        FS.read (V0.LogSimpleRequest { HideRequestsFromMainLog := true }
              (V0.SetMinimumLogLevel initialState "DEBUG") 5 "2024-01-02" "TS"
              "GET" "/" "UA" "1.2.3.4").fs
              (mainKey { HideRequestsFromMainLog := true } "2024-01-02")
            = FS.read (V0.SetMinimumLogLevel initialState "DEBUG").fs
                (mainKey { HideRequestsFromMainLog := true } "2024-01-02"))
      ∧ (FS.read (V0.LogSimpleRequest { HideRequestsFromMainLog := true }
              (V0.SetMinimumLogLevel initialState "DEBUG") 5 "2024-01-02" "TS"
              "GET" "/" "UA" "1.2.3.4").fs
              (mainKey { HideRequestsFromMainLog := true } "2024-01-02")
            ≠ FS.read (V0.SetMinimumLogLevel initialState "DEBUG").fs
                (mainKey { HideRequestsFromMainLog := true } "2024-01-02")
          ↔ ¬(({ HideRequestsFromMainLog := true } : Config).LogRequestsSeparately = true
              ∧ ({ HideRequestsFromMainLog := true } : Config).HideRequestsFromMainLog = true))) :=
  ⟨by decide,
    c6_main_log_visibility { HideRequestsFromMainLog := true }
      (V0.SetMinimumLogLevel initialState "DEBUG") 5 "2024-01-02" "TS"
      "GET" "/" "UA" "1.2.3.4" (by decide)⟩

theorem Geo.logRequestMain_lookup (cfg : Config) (st : LoggerState) (now : Nat)
    (date ts : String) (req : Geo.Request) {k : String} (hk : k ≠ mainKey cfg date) :
    FS.lookup (Geo.logRequestMain cfg st now date ts req).fs k = FS.lookup st.fs k := by
  unfold Geo.logRequestMain V0.Log
  split
  · exact V0.l_lookup_other cfg st now date ts _ _ hk
  · rfl

theorem Geo.logRequestCSV_header (cfg : Config) (st : LoggerState) (date : String)
    (req : Geo.Request) (hl : cfg.LogRequestsSeparately = true)
    (hinv : FS.lookup st.fs (csvKey cfg date) = none
      ∨ ∃ rows, FS.lookup st.fs (csvKey cfg date) = some (Geo.headerLine :: rows)
          ∧ Geo.headerLine ∉ rows) :
    ∃ rows, FS.lookup (Geo.logRequestCSV cfg st date req).1.fs (csvKey cfg date)
        = some (Geo.headerLine :: rows) ∧ Geo.headerLine ∉ rows := by
  unfold Geo.logRequestCSV
  rw [hl]
  simp only [if_true]
  rcases hinv with hnone | ⟨rows, hsome, hmem⟩
  · have hp : FS.present st.fs (csvKey cfg date) = false := by
      simp [FS.present, hnone]
    refine ⟨[Geo.ToCSV { req with UserAgent := replaceCommas req.UserAgent }], ?_, ?_⟩
    · simp only [hp, Bool.false_eq_true, if_false]
      rw [FS.lookup_appendLine_self]
      simp [FS.read, FS.lookup_setFile_self]
    · simp only [List.mem_singleton]
      exact fun h => Geo.toCSV_ne_headerLine _ h.symm
  · have hp : FS.present st.fs (csvKey cfg date) = true := by
      simp [FS.present, hsome]
    refine ⟨rows ++ [Geo.ToCSV { req with UserAgent := replaceCommas req.UserAgent }], ?_, ?_⟩
    · simp only [hp, if_true]
      rw [FS.lookup_appendLine_self]
      simp [FS.read, hsome]
    · intro hctr
      rcases List.mem_append.mp hctr with h | h
      · exact hmem h
      · exact Geo.toCSV_ne_headerLine _ (List.mem_singleton.mp h).symm

theorem Geo.logRequest_step (cfg : Config) (st : LoggerState) (now : Nat)
    (date ts : String) (req : Geo.Request) (hl : cfg.LogRequestsSeparately = true)
    (hinv : FS.lookup st.fs (csvKey cfg date) = none
      ∨ ∃ rows, FS.lookup st.fs (csvKey cfg date) = some (Geo.headerLine :: rows)
          ∧ Geo.headerLine ∉ rows) :
    ∃ rows, FS.lookup (Geo.LogRequest cfg st now date ts req).1.fs (csvKey cfg date)
        = some (Geo.headerLine :: rows) ∧ Geo.headerLine ∉ rows := by
  have hkey : csvKey cfg date ≠ mainKey cfg date :=
    Ne.symm (mainKey_ne_csvKey cfg cfg date date)
  unfold Geo.LogRequest
  apply Geo.logRequestCSV_header cfg _ date req hl
  rcases hinv with h | ⟨rows, h, hm⟩
  · left
    rw [Geo.logRequestMain_lookup cfg st now date ts req hkey]
    exact h
  · right
    exact ⟨rows, by rw [Geo.logRequestMain_lookup cfg st now date ts req hkey]; exact h, hm⟩

theorem Geo.runDay_keeps (cfg : Config) (date : String)
    (hl : cfg.LogRequestsSeparately = true) :
    ∀ (calls : List (Nat × String × Geo.Request)) (st : LoggerState),
      (∃ rows, FS.lookup st.fs (csvKey cfg date) = some (Geo.headerLine :: rows)
          ∧ Geo.headerLine ∉ rows) →
      ∃ rows, FS.lookup (Geo.runDay cfg date st calls).fs (csvKey cfg date)
          = some (Geo.headerLine :: rows) ∧ Geo.headerLine ∉ rows := by
  intro calls
  induction calls with
  | nil => intro st h; simpa [Geo.runDay] using h
  | cons c rest ih =>
    intro st h
    obtain ⟨now, ts, req⟩ := c
    have hstep := Geo.logRequest_step cfg st now date ts req hl (Or.inr h)
    simpa [Geo.runDay] using ih _ hstep

/-- C7 (amended): in the geo variant (part_002), with separate request
logging on and the CSV file for the day absent initially, any nonempty
sequence of LogRequest calls for that day leaves the file existing,
beginning with the fixed header line, and containing no further copy of the
header line: the first write of the day writes the header before the first
data row and every non-empty per-day CSV file begins with exactly one
header row.  The basic variant (request.go) writes no header at all. -/
theorem c7_geo_header_once (cfg : Config) (date : String) (st : LoggerState)
    (calls : List (Nat × String × Geo.Request))
    (hl : cfg.LogRequestsSeparately = true)
    (h0 : FS.lookup st.fs (csvKey cfg date) = none)
    (hne : calls ≠ []) :
    ∃ rows, FS.lookup (Geo.runDay cfg date st calls).fs (csvKey cfg date)
        = some (Geo.headerLine :: rows) ∧ Geo.headerLine ∉ rows := by
  cases calls with
  | nil => exact absurd rfl hne
  | cons c rest =>
    obtain ⟨now, ts, req⟩ := c
    have hstep := Geo.logRequest_step cfg st now date ts req hl (Or.inl h0)
    simpa [Geo.runDay] using Geo.runDay_keeps cfg date hl rest _ hstep

/-- C7 witness: two requests on one day starting from an empty file
system. -/
theorem c7_geo_header_once_witness :
    ({ LogRequestsSeparately := true } : Config).LogRequestsSeparately = true
    ∧ FS.lookup initialState.fs (csvKey { LogRequestsSeparately := true } "2024-01-02")
        = none
    ∧ ([(5, "T1", ({ Method := "GET" } : Geo.Request)),
        (9, "T2", ({ Method := "POST" } : Geo.Request))]
        : List (Nat × String × Geo.Request)) ≠ []
    ∧ ∃ rows, FS.lookup (Geo.runDay { LogRequestsSeparately := true } "2024-01-02"
          initialState
          [(5, "T1", ({ Method := "GET" } : Geo.Request)),
           (9, "T2", ({ Method := "POST" } : Geo.Request))]).fs
          (csvKey { LogRequestsSeparately := true } "2024-01-02")
        = some (Geo.headerLine :: rows) ∧ Geo.headerLine ∉ rows :=
  ⟨by decide, by decide, by decide,
    c7_geo_header_once { LogRequestsSeparately := true } "2024-01-02" initialState
      [(5, "T1", { Method := "GET" }), (9, "T2", { Method := "POST" })]
      (by decide) (by decide) (by decide)⟩

/-- C7 counterexample: the basic variant (request.go lines 135-161, cited
by the claim) writes no header: the first write of the day produces a
non-empty per-day CSV file whose only line is the data row, not the header
row. -/
theorem c7_basic_no_header_counterexample :
    FS.lookup (Basic.LogRequest
        { LogRequestsSeparately := true, HideRequestsFromMainLog := true }
        initialState 5 "2024-01-02" "TS"
        { ConnectionTime := "ct"
          Method := "GET"
          Path := "/"
          IP := "1.2.3.4"
          Address := "addr"
          UserAgent := "UA"
          Referer := "ref"
          ConnectionID := 1
          ConnectionSeq := 2
          RequestedHost := "host" }).1.fs "./logs/requests-2024-01-02.csv"
      = some ["ct,GET,/,1.2.3.4,addr,UA,ref,host,1,2\n"]
    ∧ "ct,GET,/,1.2.3.4,addr,UA,ref,host,1,2\n"
        ≠ String.intercalate "," Basic.GetCSVHeader ++ "\n" :=
  ⟨by decide, by decide⟩

/-- C8 (code bug in the basic variant): in the geo variant the header names
the fields in exactly the order ToCSV emits them, with the geo columns
between requested_host and the connection identifiers, matching the claimed
order; but in the basic variant (request.go) GetCSVHeader ends with
connection_id, connection_seq, requested_host while its own ToCSV emits
requested_host before the connection identifiers, so the basic header
neither matches the claimed order nor its own rows. -/
theorem c8_csv_header_order :
    (∀ r : Geo.Request,
      Geo.GetCSVHeader.map (Geo.fieldByTag r) = (Geo.toCSVFields r).map some)
    ∧ (∀ r : Geo.Request,
      Geo.ToCSV r = String.intercalate "," (Geo.toCSVFields r) ++ "\n")
    ∧ (∀ r : Basic.Request,
      Basic.ToCSV r = String.intercalate "," (Basic.toCSVFields r) ++ "\n")
    ∧ Geo.GetCSVHeader
        = ["connection_time", "method", "path", "ip", "address", "user_agent",
           "referer", "requested_host", "continent", "country", "country_code",
           "city", "latitude", "longitude", "timezone", "postal_code",
           "subdivision", "subdivision_code", "connection_id", "connection_seq"]
    ∧ Basic.GetCSVHeader
        ≠ ["connection_time", "method", "path", "ip", "address", "user_agent",
           "referer", "requested_host", "connection_id", "connection_seq"]
    ∧ Basic.GetCSVHeader.map (Basic.fieldByTag
          { ConnectionTime := "ct"
            Method := "m"
            Path := "p"
            IP := "i"
            Address := "a"
            UserAgent := "u"
            Referer := "r"
            ConnectionID := 1
            ConnectionSeq := 2
            RequestedHost := "h" })
        ≠ (Basic.toCSVFields
          { ConnectionTime := "ct"
            Method := "m"
            Path := "p"
            IP := "i"
            Address := "a"
            UserAgent := "u"
            Referer := "r"
            ConnectionID := 1
            ConnectionSeq := 2
            RequestedHost := "h" }).map some := by
  refine ⟨fun r => rfl, fun r => ?_, fun r => ?_, rfl, by decide, by decide⟩
  · apply string_ext
    simp [Geo.ToCSV, Geo.toCSVFields, String.intercalate, String.intercalate.go,
      String.data_append]
  · apply string_ext
    simp [Basic.ToCSV, Basic.toCSVFields, String.intercalate, String.intercalate.go,
      String.data_append]

/-- C9 counterexample: with a geo database configured whose City lookup
fails on the client IP (as it does for an unparseable IP, passed to the
library as nil), LogRequestFromFiber hits log.Fatal: the call terminates
with the error and the request is not logged anywhere. -/
theorem c9_geo_lookup_fatal_counterexample :
    Geo.LogRequestFromFiber {} initialState
        (some fun _ => Except.error "lookup failed") 5 "2024-01-02" "TS"
        { ip := "not-an-ip" }
      = Except.error "lookup failed" := rfl

/-- C9 (amended): when no geo database is configured, LogRequestFromFiber
never fails: it logs the request built from the context with every geo
field left empty (or zero), handing it to LogRequest unchanged. -/
theorem c9_geo_best_effort_nodb (cfg : Config) (st : LoggerState) (now : Nat)
    (date ts : String) (c : Geo.FiberCtx) :
    Geo.LogRequestFromFiber cfg st none now date ts c
      = Except.ok (Geo.LogRequest cfg st now date ts
          { ConnectionTime := c.connTime
            Method := c.method
            Path := c.path
            IP := match c.ips with | [] => c.ip | x :: _ => x
            Address := c.remoteAddr
            UserAgent := c.userAgent
            Referer := c.referer
            ConnectionID := c.connID
            ConnectionSeq := c.connSeq
            RequestedHost := c.host
            Continent := ""
            Country := ""
            CountryCode := ""
            City := ""
            Latitude := 0
            Longitude := 0
            Timezone := ""
            PostalCode := ""
            Subdivision := ""
            SubdivisionCode := "" }) := rfl

/-- C10: when LogRequestsSeparately is set, LogRequest returns its request
with every comma of UserAgent replaced by a semicolon and every other field
unchanged, in both the geo and the basic variant; the replacement is exact
per-character substitution and leaves no comma in the field. -/
theorem c10_user_agent_mutation (cfg : Config) (st : LoggerState) (now : Nat)
    (date ts : String) (req : Geo.Request) (breq : Basic.Request)
    (hl : cfg.LogRequestsSeparately = true) :
    (Geo.LogRequest cfg st now date ts req).2
        = { req with UserAgent := replaceCommas req.UserAgent }
    ∧ (Basic.LogRequest cfg st now date ts breq).2
        = { breq with UserAgent := replaceCommas breq.UserAgent }
    ∧ (replaceCommas req.UserAgent).data
        = req.UserAgent.data.map (fun c => if c = ',' then ';' else c)
    ∧ ',' ∉ (replaceCommas req.UserAgent).data := by
  refine ⟨?_, ?_, rfl, ?_⟩
  · unfold Geo.LogRequest Geo.logRequestCSV
    rw [hl, if_pos rfl]
  · unfold Basic.LogRequest
    rw [hl]
    rfl
  · intro hmem
    have hmem2 : ',' ∈ req.UserAgent.data.map (fun c => if c = ',' then ';' else c) :=
      hmem
    obtain ⟨c, hc, hfc⟩ := List.mem_map.mp hmem2
    by_cases h : c = ','
    · rw [h] at hfc
      simp at hfc
    · rw [if_neg h] at hfc
      exact h hfc

/-- C10 witness: a user agent with a comma, logged separately, comes back
with the comma replaced by a semicolon. -/
theorem c10_user_agent_mutation_witness :
    ({ LogRequestsSeparately := true } : Config).LogRequestsSeparately = true
    ∧ (Geo.LogRequest { LogRequestsSeparately := true } initialState 5
        "2024-01-02" "TS" { UserAgent := "a,b" }).2.UserAgent = "a;b"
    ∧ (Basic.LogRequest { LogRequestsSeparately := true } initialState 5
        "2024-01-02" "TS" { UserAgent := "x,y" }).2.UserAgent = "x;y" := by
  refine ⟨rfl, ?_, ?_⟩
  · rw [(c10_user_agent_mutation { LogRequestsSeparately := true } initialState 5
      "2024-01-02" "TS" { UserAgent := "a,b" } {} rfl).1]
    decide
  · rw [(c10_user_agent_mutation { LogRequestsSeparately := true } initialState 5
      "2024-01-02" "TS" {} { UserAgent := "x,y" } rfl).2.1]
    decide
